import Mathlib

/-!
Shallow embedding of the CUHK course-catalog scraper
(`cuhk_scraper.py`, `analyze_course_data.py`) and proofs about it.

HTML pages are abstracted to the exact facts the Python code queries through
BeautifulSoup (presence of specific elements and their stripped text); all
string tests the code performs (`in`, truthiness, equality) are carried out on
real strings with executable definitions.
-/

/-! ## Generic string helpers (Python semantics) -/

/-- Decidable prefix test on character lists. -/
def isPrefixCL : List Char → List Char → Bool
  | [], _ => true
  | _ :: _, [] => false
  | a :: as, b :: bs => a = b && isPrefixCL as bs

/-- Decidable substring containment on character lists. -/
def containsCL (needle : List Char) : List Char → Bool
  | [] => needle.isEmpty
  | c :: rest => isPrefixCL needle (c :: rest) || containsCL needle rest

/-- Python `needle in hay` for strings: substring containment. -/
def pyIn (needle hay : String) : Bool :=
  containsCL needle.data hay.data

/-- Python string truthiness: a string is truthy iff it is non-empty. -/
def pyTruthy (s : String) : Bool := s ≠ ""

/-! ## §4.3 CAPTCHA response classification (`_validate_captcha_response`) -/

/-- Abstraction of the results table `gv_detail` as queried by the code:
the (optional) stripped text of a `tr.normalGridViewEmptyDataRowStyle` row,
and whether any anchor whose id contains `lbtn_course_nbr` exists. -/
structure ResultsTable where
  emptyRowText : Option String
  hasCourseLinks : Bool
deriving Repr, DecidableEq

/-- Abstraction of a server response page after a captcha submission,
holding exactly the features `_validate_captcha_response` inspects:
the stripped text of `span#lbl_error.errorLabel` (if such a span exists),
the results table `table#gv_detail` (if present), and whether an input
named `txt_captcha` (the search form) is present. -/
structure CaptchaResponsePage where
  errorSpanText : Option String
  resultsTable : Option ResultsTable
  hasCaptchaInput : Bool
deriving Repr, DecidableEq

/-- The `result_type` strings produced by `_validate_captcha_response`. -/
inductive ResultType
  | captcha_failed
  | server_error
  | captcha_failed_no_table
  | unknown_error
  | no_records
  | has_courses
  | empty_unclear
deriving Repr, DecidableEq

/-- The dict returned by `_validate_captcha_response`. -/
structure CaptchaValidation where
  captcha_accepted : Bool
  has_results : Bool
  result_type : ResultType
  error_message : Option String
deriving Repr, DecidableEq

/-- Embedding of `CuhkScraper._validate_captcha_response`
(`src/cuhk_scraper.py` lines 463-550), mirroring its control flow. -/
def validateCaptchaResponse (page : CaptchaResponsePage) : CaptchaValidation :=
  -- 1. Check for explicit captcha error message
  match page.errorSpanText with
  | some errorText =>
    if pyTruthy errorText then
      if pyIn "Invalid Verification Code" errorText then
        ⟨false, false, .captcha_failed, some errorText⟩
      else
        ⟨false, false, .server_error, some errorText⟩
    else
      validateCaptchaResponseNoError page
  | none => validateCaptchaResponseNoError page
where
  /-- The part of the function after the error-span check. -/
  validateCaptchaResponseNoError (page : CaptchaResponsePage) : CaptchaValidation :=
    -- 2. If no error message, check for results table
    match page.resultsTable with
    | none =>
      if page.hasCaptchaInput then
        ⟨false, false, .captcha_failed_no_table,
          some "No results table found, search form redisplayed"⟩
      else
        ⟨true, false, .unknown_error, some "No results table, no search form"⟩
    | some table =>
      -- 3. Results table exists - check if it has actual data
      match table.emptyRowText with
      | some emptyText =>
        if pyIn "No record found" emptyText then
          ⟨true, false, .no_records, none⟩
        else
          validateCaptchaResponseTail table
      | none => validateCaptchaResponseTail table
  /-- Steps 4-5: course-link check and fallback. -/
  validateCaptchaResponseTail (table : ResultsTable) : CaptchaValidation :=
    if table.hasCourseLinks then
      ⟨true, true, .has_courses, none⟩
    else
      ⟨true, false, .empty_unclear, some "Results table exists but content unclear"⟩

/-- Index (0-based) of the first `true` in a list of case conditions;
the list's length if none holds. -/
def firstTrueIndex : List Bool → Nat
  | [] => 0
  | b :: bs => if b then 0 else firstTrueIndex bs + 1

/-- The conditions of the claim's cases 1-6 (case 7 is the catch-all),
each written from the spec's words. -/
def specCaptchaConds (page : CaptchaResponsePage) : List Bool :=
  [ -- (1) error-indicator span with non-empty text containing the
    --     invalid-verification-code message
    (match page.errorSpanText with
     | some t => t ≠ "" && pyIn "Invalid Verification Code" t
     | none => false),
    -- (2) error-indicator span with any other non-empty text
    (match page.errorSpanText with
     | some t => t ≠ ""
     | none => false),
    -- (3) no results table but the captcha search form still present
    page.resultsTable.isNone && page.hasCaptchaInput,
    -- (4) no results table and no search form
    page.resultsTable.isNone,
    -- (5) a results table containing an explicit no-record-found empty row
    (match page.resultsTable with
     | some tab =>
       match tab.emptyRowText with
       | some t => pyIn "No record found" t
       | none => false
     | none => false),
    -- (6) a results table containing at least one course-anchor data row
    (match page.resultsTable with
     | some tab => tab.hasCourseLinks
     | none => false) ]

/-- Spec-side formulation of the claim's seven prioritized cases
(outcome numbers 1-7 as in §4.3 of the spec), written from the spec's words:
the outcome of a page is the number of the FIRST case whose condition holds,
7 if none of cases 1-6 does. -/
def specCaptchaOutcome (page : CaptchaResponsePage) : Nat :=
  firstTrueIndex (specCaptchaConds page) + 1

/-- The outcome number (1-7 in the spec's §4.3 ordering) of each
`result_type` produced by the code. -/
def resultTypeOutcome : ResultType → Nat
  | .captcha_failed => 1
  | .server_error => 2
  | .captcha_failed_no_table => 3
  | .unknown_error => 4
  | .no_records => 5
  | .has_courses => 6
  | .empty_unclear => 7

/-! ## §4.3 / §5 CAPTCHA solve-and-validate loop (`scrape_subject`) -/

/-- What one attempt of the `scrape_subject` retry loop does with the
validation of the POST response. -/
inductive AttemptAction
  | retry
  | succeedEmpty
  | succeedCourses
deriving Repr, DecidableEq

/-- Embedding of the per-attempt control flow of `CuhkScraper.scrape_subject`
(`src/cuhk_scraper.py` lines 610-711): a response whose validation has
`captcha_accepted = False` makes the loop `continue` to the next attempt;
an accepted response terminates the loop for `no_records` (returning `[]`)
or `has_courses` (returning the parsed courses); any other accepted
result type hits the "Unexpected validation result" branch and retries. -/
def scrapeSubjectAttemptAction (v : CaptchaValidation) : AttemptAction :=
  if !v.captcha_accepted then
    .retry
  else if v.result_type = .no_records then
    .succeedEmpty
  else if v.result_type = .has_courses then
    .succeedCourses
  else
    .retry

/-- Embedding of the whole `for attempt in range(max_retries)` loop of
`scrape_subject`: each list element is one attempt (the validation of its
response paired with the courses parsed from that response); the list has
at most `max_retries` elements; falling off the loop returns `[]`. -/
def scrapeSubjectResult : List (CaptchaValidation × List String) → List String
  | [] => []
  | (v, cs) :: rest =>
    match scrapeSubjectAttemptAction v with
    | .retry => scrapeSubjectResult rest
    | .succeedEmpty => []
    | .succeedCourses => cs

/-! ## §4.5 Progress tracking and orchestration
(`ScrapingProgressTracker`, `scrape_all_subjects`) -/

/-- Python-dict insertion on an association list: replace in place if the
key exists, append otherwise (Python dicts keep insertion order). -/
def dictSet {α β : Type} [DecidableEq α] (k : α) (v : β) :
    List (α × β) → List (α × β)
  | [] => [(k, v)]
  | (k', v') :: rest =>
    if k' = k then (k, v) :: rest else (k', v') :: dictSet k v rest

/-- Python-dict lookup on an association list. -/
def dictGet {α β : Type} [DecidableEq α] (k : α) : List (α × β) → Option β
  | [] => none
  | (k', v') :: rest => if k' = k then some v' else dictGet k rest

/-- Status of a subject in the progress document. -/
inductive SubjStatus
  | in_progress
  | completed
  | failed
deriving Repr, DecidableEq

/-- The fields of a per-subject progress record that the claims touch. -/
structure SubjectRecord where
  status : SubjStatus
  coursesCount : Nat
  /-- Age of the record's completion timestamp, for the freshness window. -/
  ageDays : Nat
deriving Repr, DecidableEq

/-- The progress document: subject code to record, in insertion order. -/
abbrev Progress : Type := List (String × SubjectRecord)

/-- Embedding of `ScrapingProgressTracker.complete_subject`
(`src/cuhk_scraper.py` lines 217-236): overwrite the subject's record with
a fresh `completed` record. -/
def completeSubject (p : Progress) (subject : String) (coursesCount : Nat) :
    Progress :=
  dictSet subject ⟨.completed, coursesCount, 0⟩ p

/-- Embedding of `ScrapingProgressTracker.fail_subject`
(`src/cuhk_scraper.py` lines 238-257): overwrite the subject's record with
a `failed` record, keeping the scraped-courses count. -/
def failSubject (p : Progress) (subject : String) : Progress :=
  dictSet subject
    ⟨.failed, (dictGet subject p).map SubjectRecord.coursesCount |>.getD 0, 0⟩ p

/-- Result of the per-subject step of `scrape_all_subjects`. -/
structure OrchestrationStep where
  progress : Progress
  /-- The courses of the subject document written by
  `_save_subject_immediately`, `none` when no document was written. -/
  savedDoc : Option (List String)
  /-- Whether the subject was appended to `completed_subjects`. -/
  markedCompleted : Bool
  /-- Whether the subject was appended to `failed_subjects`. -/
  markedFailed : Bool
deriving Repr, DecidableEq

/-- Embedding of one iteration of the subject loop of
`CuhkScraper.scrape_all_subjects` (`src/cuhk_scraper.py` lines 1501-1556):
`scrape_subject`'s result (or the exception it raised), then
`_save_subject_immediately` (which always writes the document, empty or
not, and only fails on an I/O error, modelled by `saveOk`). -/
def processSubject (p : Progress) (subject : String)
    (scrape : Except String (List String)) (saveOk : Bool) :
    OrchestrationStep :=
  match scrape with
  | .ok courses =>
    if saveOk then
      ⟨completeSubject p subject courses.length, some courses, true, false⟩
    else
      ⟨failSubject p subject, none, false, true⟩
  | .error _ =>
    ⟨failSubject p subject, none, false, true⟩

/-- The per-subject pipeline of `scrape_all_subjects` composed with
`scrape_subject`: the captcha loop never raises (every exception inside an
attempt is caught and turned into a retry), so the orchestration always
receives an `.ok` course list. -/
def orchestrateSubject (p : Progress) (subject : String)
    (attempts : List (CaptchaValidation × List String)) (saveOk : Bool) :
    OrchestrationStep :=
  processSubject p subject (.ok (scrapeSubjectResult attempts)) saveOk

/-- A concrete captcha-rejection response page: the server answered with an
explicit invalid-verification-code error (outcome 1). -/
def pageCaptchaFailed : CaptchaResponsePage :=
  ⟨some "Invalid Verification Code, please try again.", none, true⟩

/-- A concrete server-error response page: the error-indicator span holds
text other than the invalid-code message (outcome 2). -/
def pageServerError : CaptchaResponsePage :=
  ⟨some "System busy, please try again later.", none, true⟩

/-- A concrete ambiguous-accept response page: no results table and no
search form (outcome 4). -/
def pageAmbiguousAccept : CaptchaResponsePage :=
  ⟨none, none, false⟩

/-- A concrete accepted-unclear response page: a results table with neither
a no-record-found empty row nor course anchors (outcome 7). -/
def pageAcceptedUnclear : CaptchaResponsePage :=
  ⟨none, some ⟨none, false⟩, true⟩

/-! ## §4.5 skip decision (modelled from the spec) -/

/-- Modelled from the spec: the production-workflow methods that consult the
progress document before scraping (`scrape_for_production`,
`resume_production_scraping`) are invoked by `scrape_all_subjects.py` and by
the tests but are not defined anywhere under `src/`; §4.5 specifies
"`shouldSkip` returns true only for subjects already marked completed
(optionally gated by a freshness window so a subject completed long enough
ago is retried)". -/
def shouldSkip (window : Option Nat) (p : Progress) (subject : String) : Bool :=
  match dictGet subject p with
  | some r =>
    r.status = .completed &&
      (match window with
       | some w => r.ageDays ≤ w
       | none => true)
  | none => false

/-- Result of the skip-gated per-subject orchestration. -/
structure GatedStep where
  progress : Progress
  /-- Number of HTTP requests performed for this subject. -/
  requests : Nat
deriving Repr, DecidableEq

/-- Modelled from the spec: the skip-gated orchestration of §2/§4.5 — "the
orchestration loop asks the Progress Manager whether to skip; if not, it
drives the Session Engine through the CAPTCHA loop". A skipped subject is
left untouched; a non-skipped subject performs its network requests
(at least the initial page fetch) and updates the progress document via the
standard per-subject flow. -/
def gatedOrchestrateSubject (window : Option Nat) (p : Progress)
    (subject : String) (attempts : List (CaptchaValidation × List String))
    (requestsUsed : Nat) (saveOk : Bool) : GatedStep :=
  if shouldSkip window p subject then
    ⟨p, 0⟩
  else
    ⟨(orchestrateSubject p subject attempts saveOk).progress, requestsUsed + 1⟩

/-! ## §4.1 Resilient transport (`_robust_request`) -/

/-- Outcome of one HTTP attempt as `_robust_request` observes it: a
connection/timeout exception, an HTTP error status raised by
`raise_for_status`, or a successful response. -/
inductive ReqOutcome
  | netErr
  | httpErr (status : Nat)
  | ok
deriving Repr, DecidableEq

/-- What the `while True` body of `_robust_request` does after one attempt. -/
inductive StepAction
  | retryAfter (wait : Nat)
  | raiseStatus (status : Nat)
  | success
deriving Repr, DecidableEq

/-- Embedding of one iteration of `CuhkScraper._robust_request`
(`src/cuhk_scraper.py` lines 349-380). `failures` is the number of failed
attempts before this one (the Python `attempt` counter before its
increment); on a retryable failure the wait is
`min(60, 1.0 * 2 ** (attempt - 1))` seconds with `attempt = failures + 1`. -/
def robustStep (failures : Nat) (o : ReqOutcome) : StepAction :=
  match o with
  | .ok => .success
  | .netErr => .retryAfter (min 60 (2 ^ failures))
  | .httpErr s =>
    if s ∈ [502, 503, 504] then .retryAfter (min 60 (2 ^ failures))
    else .raiseStatus s

/-- Observable result of running `_robust_request` against a (finite prefix
of a) sequence of attempt outcomes: the waits slept so far, ending in a
return, a raised status, or still retrying (the loop itself is unbounded). -/
inductive RunResult
  | succeeded (waits : List Nat)
  | raised (status : Nat) (waits : List Nat)
  | retrying (waits : List Nat)
deriving Repr, DecidableEq

/-- Embedding of the `while True` loop of `_robust_request` over a finite
prefix of attempt outcomes, starting with `failures` prior failures. -/
def robustRun (failures : Nat) : List ReqOutcome → RunResult
  | [] => .retrying []
  | o :: os =>
    match robustStep failures o with
    | .success => .succeeded []
    | .raiseStatus s => .raised s []
    | .retryAfter w =>
      match robustRun (failures + 1) os with
      | .succeeded ws => .succeeded (w :: ws)
      | .raised s ws => .raised s (w :: ws)
      | .retrying ws => .retrying (w :: ws)

/-- An attempt outcome the transport retries: a connection/timeout error or
an HTTP 502/503/504. -/
def retryableOutcome (o : ReqOutcome) : Prop :=
  o = .netErr ∨ ∃ s, o = .httpErr s ∧ s ∈ [502, 503, 504]

/-! ## §4.3/§6 guess validation (`_solve_captcha`) and form building -/

/-- Python whitespace characters (`str.strip` default set, ASCII range). -/
def isPySpace (c : Char) : Bool :=
  c = ' ' || c = '\t' || c = '\n' || c = '\r' || c.toNat = 11 || c.toNat = 12

/-- Python `str.strip()`: drop leading and trailing whitespace. -/
def pyStrip (s : String) : String :=
  ⟨((s.data.dropWhile isPySpace).reverse.dropWhile isPySpace).reverse⟩

/-- Python `str.upper()` (ASCII range). -/
def pyUpper (s : String) : String :=
  ⟨s.data.map Char.toUpper⟩

/-- Python `str.isalnum()` (ASCII range): non-empty and every character
alphanumeric. -/
def pyIsAlnum (s : String) : Bool :=
  s ≠ "" && s.data.all Char.isAlphanum

/-- Embedding of `CuhkScraper._solve_captcha`
(`src/cuhk_scraper.py` lines 444-461) applied to the raw string produced by
the external visual classifier: strip, uppercase, and accept only exactly
4 alphanumeric characters, returning `none` otherwise. -/
def solveCaptcha (raw : String) : Option String :=
  let text := pyUpper (pyStrip raw)
  if text.length = 4 ∧ pyIsAlnum text = true then some text else none

/-- The hidden `<input type="hidden">` fields of a page, in document order:
optional `name` attribute (as BeautifulSoup's `.get('name')` returns it)
and `value` attribute (defaulted to `""`). -/
abbrev HiddenInputs : Type := List (Option String × String)

/-- The hidden-field loop shared by `_extract_form_data`,
`get_course_details`, `_scrape_term_details` and
`_get_section_enrollment_details`: `form_data[name] = value` for every
hidden input whose name is truthy (present and non-empty). -/
def buildHidden (hidden : HiddenInputs) : List (String × String) :=
  hidden.foldl
    (fun acc nv =>
      match nv.1 with
      | some n => if n ≠ "" then dictSet n nv.2 acc else acc
      | none => acc)
    []

/-- Embedding of `CuhkScraper._extract_form_data`
(`src/cuhk_scraper.py` lines 713-753) on a page whose captcha image is
present, given the classifier's raw output: hidden fields first; an invalid
guess aborts with the empty dict; otherwise `txt_captcha`, a blank
`ddl_subject` and `btn_search` are added. -/
def extractFormData (hidden : HiddenInputs) (ocrRaw : String) :
    List (String × String) :=
  match solveCaptcha ocrRaw with
  | none => []
  | some text =>
    dictSet "btn_search" "Search"
      (dictSet "ddl_subject" ""
        (dictSet "txt_captcha" text (buildHidden hidden)))

/-- The POST payload of one `scrape_subject` attempt
(`src/cuhk_scraper.py` lines 620-624): the extracted form data with
`ddl_subject` set to the subject code. The POST is issued unconditionally —
there is no branch that skips the submission when the extracted form data
is empty. -/
def attemptPostPayload (hidden : HiddenInputs) (ocrRaw : String)
    (subject : String) : List (String × String) :=
  dictSet "ddl_subject" subject (extractFormData hidden ocrRaw)

/-! ## §4.2 form submissions and their overridden fields -/

/-- The five next-form submissions built from a page, with the values the
caller supplies. -/
inductive FormBuilder
  | subjectSearch (captchaText subject : String)
  | coursePostback (target : String)
  | termChange (termCode : String)
  | showSections (termCode : String)
  | sectionDrilldown (target : String)
deriving Repr, DecidableEq

/-- The field assignments each call site performs after the hidden-field
loop, in source order (`src/cuhk_scraper.py` lines 724-751, 837-839,
946-949, 973-975, 1230-1232). -/
def builderOverrides : FormBuilder → List (String × String)
  | .subjectSearch c subj =>
    [("txt_captcha", c), ("ddl_subject", ""), ("btn_search", "Search"),
     ("ddl_subject", subj)]
  | .coursePostback t => [("__EVENTTARGET", t), ("__EVENTARGUMENT", "")]
  | .termChange tc =>
    [("uc_course$ddl_class_term", tc),
     ("__EVENTTARGET", "uc_course$ddl_class_term"), ("__EVENTARGUMENT", "")]
  | .showSections tc =>
    [("uc_course$btn_class_section", "Show sections"),
     ("uc_course$ddl_class_term", tc)]
  | .sectionDrilldown t => [("__EVENTTARGET", t), ("__EVENTARGUMENT", "")]

/-- The names the caller explicitly overrides for a given submission. -/
def overrideNames (b : FormBuilder) : List String :=
  (builderOverrides b).map Prod.fst

/-- A next-form submission: every hidden field of the page, then the
caller's explicit assignments. -/
def buildSubmission (b : FormBuilder) (hidden : HiddenInputs) :
    List (String × String) :=
  (builderOverrides b).foldl (fun acc kv => dictSet kv.1 kv.2 acc)
    (buildHidden hidden)

/-- The (truthy) names of a page's hidden inputs, in document order. -/
def hiddenNames : HiddenInputs → List String
  | [] => []
  | (o, _) :: rest =>
    match o with
    | some n => if n ≠ "" then n :: hiddenNames rest else hiddenNames rest
    | none => hiddenNames rest

/-! ## §4.4 schedule extraction row filter (`_parse_schedule_from_html`) -/

/-- The skip condition of the section-row loop
(`src/cuhk_scraper.py` lines 1082-1085 and 1183-1185):
`if not section or '(' not in section or ')' not in section: continue`. -/
def sectionRowSkipped (s : String) : Bool :=
  !pyTruthy s || !pyIn "(" s || !pyIn ")" s

/-- A schedule row survives the filter iff it is not skipped. -/
def sectionRowKept (s : String) : Bool :=
  !sectionRowSkipped s

/-- The dict `sections_data` is keyed by section label: a label is inserted
once, on its first occurrence (`if section not in sections_data`). -/
def insertSectionLabel (acc : List String) (s : String) : List String :=
  if s ∈ acc then acc else acc ++ [s]

/-- The section labels retained by `_parse_schedule_from_html` from the
schedule-table rows (each row abstracted to the cleaned text of its first
cell; rows with fewer than 3 cells are outside this abstraction). -/
def parseScheduleSections (rows : List String) : List String :=
  (rows.filter sectionRowKept).foldl insertSectionLabel []

/-- Spec-side: one or more digits directly followed by `)`. -/
def digitsThenClose : List Char → Bool
  | [] => false
  | c :: rest => if c = ')' then true else c.isDigit && digitsThenClose rest

/-- Spec-side: the list starts with `(`, then one or more digits, then `)`. -/
def parenNumAt (l : List Char) : Bool :=
  match l with
  | c :: d :: rest => c = '(' && d.isDigit && digitsThenClose rest
  | _ => false

/-- Spec-side: some position of the list starts a parenthesized number. -/
def containsParenNumber : List Char → Bool
  | [] => false
  | c :: rest => parenNumAt (c :: rest) || containsParenNumber rest

/-- Spec-side predicate, written from the spec's words: the section label
contains a parenthesized numeric suffix, e.g. `--LEC (8192)`. -/
def hasParenNumericSuffix (s : String) : Bool :=
  containsParenNumber s.data

/-! ## §4.4 availability-status derivation (`_parse_class_availability`) -/

/-- The digits of a non-negative decimal literal, or `none`. -/
def pyIntDigits (l : List Char) : Option Int :=
  if l ≠ [] ∧ l.all Char.isDigit then
    some (Int.ofNat (l.foldl (fun a c => 10 * a + (c.toNat - 48)) 0))
  else
    none

/-- Python `int(s)` on the count strings the scraper extracts: surrounding
whitespace is stripped, an optional sign precedes one or more ASCII digits,
anything else raises `ValueError` (modelled as `none`). Underscore digit
separators and non-ASCII digits are outside the modelled input space. -/
def pyInt (s : String) : Option Int :=
  match (pyStrip s).data with
  | '+' :: ds => pyIntDigits ds
  | '-' :: ds => (pyIntDigits ds).map (fun n => -n)
  | ds => pyIntDigits ds

/-- Embedding of the status-derivation block of
`CuhkScraper._parse_class_availability` (`src/cuhk_scraper.py` lines
1329-1341): each count is `int(text) if text else 0`; a `ValueError` from
either conversion is caught and yields `'Unknown'`; otherwise the status is
`'Open'`, `'Waitlisted'` or `'Closed'` by the seat and waitlist counts. -/
def availabilityStatus (available_seats waitlist_total : String) : String :=
  match (if pyTruthy available_seats then pyInt available_seats else some 0),
        (if pyTruthy waitlist_total then pyInt waitlist_total else some 0) with
  | some a, some w =>
    if a > 0 then "Open" else if w > 0 then "Waitlisted" else "Closed"
  | _, _ => "Unknown"

/-! ## §4.4 time-string parsing (`analyze_course_data.parse_time_string`)

The two patterns `(\d{1,2}):(\d{2})(AM|PM)\s*-\s*(\d{1,2}):(\d{2})(AM|PM)`
(case-insensitive) and `(\d{1,2}):(\d{2})\s*-\s*(\d{1,2}):(\d{2})` are
embedded as explicit leftmost-scan matchers; `\d` and `\s` are modelled at
their ASCII extent. The regex's greedy backtracking on `\d{1,2}` is exact:
a successful two-digit hour parse is followed by `:` precisely when a
one-digit parse is not, so the two complete alternatives are mutually
exclusive and trying them in order is full backtracking; a greedy `\s*`
followed by `-` never benefits from backtracking either. -/

/-- Numeric value of an ASCII digit character. -/
def digitVal (c : Char) : Nat := c.toNat - 48

/-- One `\d`. -/
def pDigit : List Char → Option (Nat × List Char)
  | c :: r => if c.isDigit then some (digitVal c, r) else none
  | [] => none

/-- A literal `:`. -/
def pColon : List Char → Option (List Char)
  | c :: r => if c = ':' then some r else none
  | [] => none

/-- A literal `-`. -/
def pDash : List Char → Option (List Char)
  | c :: r => if c = '-' then some r else none
  | [] => none

/-- Pattern `(\d{2})`, as its numeric value. -/
def pTwoDigits (l : List Char) : Option (Nat × List Char) :=
  match pDigit l with
  | some (a, r) =>
    match pDigit r with
    | some (b, r2) => some (10 * a + b, r2)
    | none => none
  | none => none

/-- Pattern `(AM|PM)` case-insensitively; `false` is AM, `true` is PM. -/
def pPeriod : List Char → Option (Bool × List Char)
  | a :: m :: r =>
    if (a = 'A' || a = 'a') && (m = 'M' || m = 'm') then some (false, r)
    else if (a = 'P' || a = 'p') && (m = 'M' || m = 'm') then some (true, r)
    else none
  | _ => none

/-- Greedy `\s*`. -/
def pWs (l : List Char) : List Char := l.dropWhile isPySpace

/-- The continuation `:(\d{2})(AM|PM)` after a parsed hour. -/
def pHourRest (hr : Option (Nat × List Char)) :
    Option (Nat × Nat × Bool × List Char) :=
  match hr with
  | some (h, r) =>
    match pColon r with
    | some r1 =>
      match pTwoDigits r1 with
      | some (m, r2) =>
        match pPeriod r2 with
        | some (p, r3) => some (h, m, p, r3)
        | none => none
      | none => none
    | none => none
  | none => none

/-- Pattern `(\d{1,2}):(\d{2})(AM|PM)`: two hour digits preferred, one on
backtrack. -/
def pTime12 (l : List Char) : Option (Nat × Nat × Bool × List Char) :=
  match pHourRest (pTwoDigits l) with
  | some res => some res
  | none => pHourRest (pDigit l)

/-- The continuation `:(\d{2})` after a parsed hour (24-hour pattern). -/
def pHourRest24 (hr : Option (Nat × List Char)) :
    Option (Nat × Nat × List Char) :=
  match hr with
  | some (h, r) =>
    match pColon r with
    | some r1 =>
      match pTwoDigits r1 with
      | some (m, r2) => some (h, m, r2)
      | none => none
    | none => none
  | none => none

/-- Pattern `(\d{1,2}):(\d{2})` (the 24-hour pattern). -/
def pTime24 (l : List Char) : Option (Nat × Nat × List Char) :=
  match pHourRest24 (pTwoDigits l) with
  | some res => some res
  | none => pHourRest24 (pDigit l)

/-- Whole AM/PM pattern at the current position. -/
def matchAmPmAt (l : List Char) :
    Option (Nat × Nat × Bool × Nat × Nat × Bool) :=
  match pTime12 l with
  | some (h1, m1, p1, r) =>
    match pDash (pWs r) with
    | some r2 =>
      match pTime12 (pWs r2) with
      | some (h2, m2, p2, _) => some (h1, m1, p1, h2, m2, p2)
      | none => none
    | none => none
  | none => none

/-- Whole 24-hour pattern at the current position. -/
def match24At (l : List Char) : Option (Nat × Nat × Nat × Nat) :=
  match pTime24 l with
  | some (h1, m1, r) =>
    match pDash (pWs r) with
    | some r2 =>
      match pTime24 (pWs r2) with
      | some (h2, m2, _) => some (h1, m1, h2, m2)
      | none => none
    | none => none
  | none => none

/-- Embedding of `re.search` with the AM/PM pattern: try each start position from the
left, return the first match. -/
def searchAmPm : List Char → Option (Nat × Nat × Bool × Nat × Nat × Bool)
  | [] => matchAmPmAt []
  | c :: rest =>
    match matchAmPmAt (c :: rest) with
    | some g => some g
    | none => searchAmPm rest

/-- Embedding of `re.search` with the 24-hour pattern. -/
def search24 : List Char → Option (Nat × Nat × Nat × Nat)
  | [] => match24At []
  | c :: rest =>
    match match24At (c :: rest) with
    | some g => some g
    | none => search24 rest

/-- The 12-to-24-hour conversion of `parse_time_string`
(`src/analyze_course_data.py` lines 103-112): add 12 for PM hours other
than 12, map 12 AM to 0. -/
def to24 (h : Nat) (pm : Bool) : Nat :=
  if pm = true ∧ h ≠ 12 then h + 12
  else if pm = false ∧ h = 12 then 0
  else h

/-- Embedding of `parse_time_string`
(`src/analyze_course_data.py` lines 82-127): empty or `TBA` input yields
the sentinel; otherwise the AM/PM pattern is searched first and converted
to 24-hour values, then the 24-hour pattern, and the sentinel if neither
matches. -/
def parse_time_string (s : String) : Int × Int × Int × Int :=
  if s = "" ∨ pyUpper s = "TBA" then (-1, -1, -1, -1)
  else
    match searchAmPm s.data with
    | some (h1, m1, p1, h2, m2, p2) =>
      ((to24 h1 p1 : Int), (m1 : Int), (to24 h2 p2 : Int), (m2 : Int))
    | none =>
      match search24 s.data with
      | some (h1, m1, h2, m2) => ((h1 : Int), (m1 : Int), (h2 : Int), (m2 : Int))
      | none => (-1, -1, -1, -1)

/-- The ASCII digit character of `d < 10`. -/
def digitChar : Nat → Char
  | 0 => '0' | 1 => '1' | 2 => '2' | 3 => '3' | 4 => '4'
  | 5 => '5' | 6 => '6' | 7 => '7' | 8 => '8' | 9 => '9'
  | _ => '*'

/-- The canonical one-or-two digit characters of an hour `1 ≤ h ≤ 12`. -/
def hourChars12 (h : Nat) : List Char :=
  if h < 10 then [digitChar h] else ['1', digitChar (h - 10)]

/-- The canonical two digit characters of a value below 60. -/
def twoDigChars (n : Nat) : List Char :=
  [digitChar (n / 10), digitChar (n % 10)]

/-- The characters `AM` or `PM`. -/
def periodChars (pm : Bool) : List Char :=
  if pm then ['P', 'M'] else ['A', 'M']

/-- The characters of one `h:mmAM`/`h:mmPM` time part. -/
def timePartChars12 (h m : Nat) (p : Bool) : List Char :=
  hourChars12 h ++ ':' :: (twoDigChars m ++ periodChars p)

/-- The characters of one `hh:mm` 24-hour time part. -/
def timePartChars24 (h m : Nat) : List Char :=
  twoDigChars h ++ ':' :: twoDigChars m

/-- A canonical valid 12-hour time-range string, e.g. `9:30AM - 12:15PM`. -/
def mkTime12 (h1 m1 : Nat) (p1 : Bool) (h2 m2 : Nat) (p2 : Bool) : String :=
  ⟨timePartChars12 h1 m1 p1 ++
    ' ' :: '-' :: ' ' :: timePartChars12 h2 m2 p2⟩

/-- A canonical valid 24-hour time-range string, e.g. `09:30 - 10:15`. -/
def mkTime24 (h1 m1 h2 m2 : Nat) : String :=
  ⟨timePartChars24 h1 m1 ++ ' ' :: '-' :: ' ' :: timePartChars24 h2 m2⟩

/-! ## theorems -/

/-- C1: the captcha response classifier is total and decides by the claimed
fixed priority order: for every abstract response page, the `result_type`
assigned by `_validate_captcha_response` is exactly the first of the seven
prioritized spec cases whose condition holds, so each page gets exactly one
outcome and an earlier case always takes precedence over every later one. -/
theorem captcha_classifier_total_and_prioritized (page : CaptchaResponsePage) :
    resultTypeOutcome (validateCaptchaResponse page).result_type =
      specCaptchaOutcome page := by
  obtain ⟨errT, tab, hasForm⟩ := page
  unfold validateCaptchaResponse specCaptchaOutcome specCaptchaConds firstTrueIndex
    validateCaptchaResponse.validateCaptchaResponseNoError
    validateCaptchaResponse.validateCaptchaResponseTail
  rcases errT with _ | t
  · rcases tab with _ | ⟨emptyT, links⟩
    · rcases hasForm with _ | _ <;>
        simp [resultTypeOutcome, firstTrueIndex]
    · rcases emptyT with _ | et
      · rcases links with _ | _ <;>
          simp [resultTypeOutcome, firstTrueIndex]
      · by_cases hnr : pyIn "No record found" et = true
        · simp [hnr, resultTypeOutcome, firstTrueIndex]
        · rcases links with _ | _ <;>
            simp [hnr, resultTypeOutcome, firstTrueIndex]
  · by_cases ht : t = ""
    · subst ht
      rcases tab with _ | ⟨emptyT, links⟩
      · rcases hasForm with _ | _ <;>
          simp [pyTruthy, resultTypeOutcome, firstTrueIndex]
      · rcases emptyT with _ | et
        · rcases links with _ | _ <;>
            simp [pyTruthy, resultTypeOutcome, firstTrueIndex]
        · by_cases hnr : pyIn "No record found" et = true
          · simp [pyTruthy, hnr, resultTypeOutcome, firstTrueIndex]
          · rcases links with _ | _ <;>
              simp [pyTruthy, hnr, resultTypeOutcome, firstTrueIndex]
    · by_cases hiv : pyIn "Invalid Verification Code" t = true
      · simp [pyTruthy, ht, hiv, resultTypeOutcome, firstTrueIndex]
      · simp [pyTruthy, ht, hiv, resultTypeOutcome, firstTrueIndex]

/-- Every output of the classifier pairs `captcha_accepted` with
`result_type` in one of exactly seven ways: rejection for outcomes 1-3,
acceptance for outcomes 4-7. -/
theorem validate_shape (page : CaptchaResponsePage) :
    ((validateCaptchaResponse page).captcha_accepted,
     (validateCaptchaResponse page).result_type) ∈
    ([(false, .captcha_failed), (false, .server_error),
      (false, .captcha_failed_no_table), (true, .unknown_error),
      (true, .no_records), (true, .has_courses), (true, .empty_unclear)] :
      List (Bool × ResultType)) := by
  obtain ⟨errT, tab, hasForm⟩ := page
  unfold validateCaptchaResponse
    validateCaptchaResponse.validateCaptchaResponseNoError
    validateCaptchaResponse.validateCaptchaResponseTail
  rcases errT with _ | t
  · rcases tab with _ | ⟨emptyT, links⟩
    · rcases hasForm with _ | _ <;> simp
    · rcases emptyT with _ | et
      · rcases links with _ | _ <;> simp
      · by_cases hnr : pyIn "No record found" et = true
        · simp [hnr]
        · rcases links with _ | _ <;> simp [hnr]
  · by_cases ht : t = ""
    · subst ht
      rcases tab with _ | ⟨emptyT, links⟩
      · rcases hasForm with _ | _ <;> simp [pyTruthy]
      · rcases emptyT with _ | et
        · rcases links with _ | _ <;> simp [pyTruthy]
        · by_cases hnr : pyIn "No record found" et = true
          · simp [pyTruthy, hnr]
          · rcases links with _ | _ <;> simp [pyTruthy, hnr]
    · by_cases hiv : pyIn "Invalid Verification Code" t = true
      · simp [pyTruthy, ht, hiv]
      · simp [pyTruthy, ht, hiv]

/-- C2 (corrected): the claim is false — outcomes 2 (server error),
4 (no results table, no search form) and 7 (accepted-unclear) all trigger a
retry of the solve-and-validate loop, contrary to the claim that they are
treated as provisional success without a retry. -/
theorem c2_counterexample :
    scrapeSubjectAttemptAction (validateCaptchaResponse pageServerError) =
        .retry ∧
    resultTypeOutcome (validateCaptchaResponse pageServerError).result_type
        = 2 ∧
    scrapeSubjectAttemptAction (validateCaptchaResponse pageAmbiguousAccept) =
        .retry ∧
    resultTypeOutcome
        (validateCaptchaResponse pageAmbiguousAccept).result_type = 4 ∧
    scrapeSubjectAttemptAction (validateCaptchaResponse pageAcceptedUnclear) =
        .retry ∧
    resultTypeOutcome
        (validateCaptchaResponse pageAcceptedUnclear).result_type = 7 := by
  refine ⟨rfl, rfl, rfl, rfl, rfl, rfl⟩

/-- C2 (amended): in the captcha solve-and-validate loop for one subject,
only outcomes 5 (accepted-empty) and 6 (accepted-with-data) terminate the
loop successfully; every other outcome — 1 (invalid-code rejection),
2 (server error), 3 (form redisplay), 4 (no results table and no search
form) and 7 (accepted-unclear) — triggers another attempt, up to the
configured attempt bound. -/
theorem scrape_subject_retry_decision (page : CaptchaResponsePage) :
    (scrapeSubjectAttemptAction (validateCaptchaResponse page) = .retry ↔
      resultTypeOutcome (validateCaptchaResponse page).result_type ∈
        ([1, 2, 3, 4, 7] : List Nat)) ∧
    (scrapeSubjectAttemptAction (validateCaptchaResponse page) =
        .succeedEmpty ↔
      resultTypeOutcome (validateCaptchaResponse page).result_type = 5) ∧
    (scrapeSubjectAttemptAction (validateCaptchaResponse page) =
        .succeedCourses ↔
      resultTypeOutcome (validateCaptchaResponse page).result_type = 6) := by
  have h := validate_shape page
  simp only [List.mem_cons, List.not_mem_nil, or_false, Prod.mk.injEq] at h
  rcases h with ⟨ha, hr⟩ | ⟨ha, hr⟩ | ⟨ha, hr⟩ | ⟨ha, hr⟩ | ⟨ha, hr⟩ |
    ⟨ha, hr⟩ | ⟨ha, hr⟩ <;>
    simp [scrapeSubjectAttemptAction, resultTypeOutcome, ha, hr]

/-- C3: a subject whose captcha loop exhausts all `max_retries` attempts
(here 5, each attempt rejected with an invalid-verification-code error)
returns `[]` from `scrape_subject`, after which `scrape_all_subjects` writes
an empty subject document and records the subject as completed — it is not
marked failed, contradicting the claim. -/
theorem exhausted_subject_marked_completed :
    orchestrateSubject [] "CSCI"
      (List.replicate 5 (validateCaptchaResponse pageCaptchaFailed, []))
      true =
    ⟨[("CSCI", ⟨.completed, 0, 0⟩)], some [], true, false⟩ := by
  rfl

/-- C4 (spec-modelled): the skip decision returns true exactly for subjects
whose recorded status is completed (within the freshness window when one is
configured), and re-running the gated orchestration over such a subject
performs zero network requests and leaves the progress document unchanged. -/
theorem completed_subject_skipped (window : Option Nat) (p : Progress)
    (s : String) (attempts : List (CaptchaValidation × List String))
    (ru : Nat) (saveOk : Bool) :
    (shouldSkip window p s = true ↔
      ∃ r, dictGet s p = some r ∧ r.status = .completed ∧
        ∀ w, window = some w → r.ageDays ≤ w) ∧
    (shouldSkip window p s = true →
      gatedOrchestrateSubject window p s attempts ru saveOk = ⟨p, 0⟩) := by
  constructor
  · unfold shouldSkip
    cases hg : dictGet s p with
    | none => simp
    | some r =>
      cases window with
      | none => simp [decide_eq_true_eq]
      | some w => simp [decide_eq_true_eq, and_assoc]
  · intro hskip
    unfold gatedOrchestrateSubject
    simp [hskip]

/-- Witness for `completed_subject_skipped` at a concrete progress document:
a subject completed 3 days ago inside a 7-day window is skipped and its
gated run makes zero requests and keeps the document intact. -/
theorem completed_subject_skipped_witness :
    shouldSkip (some 7) [("CSCI", ⟨.completed, 42, 3⟩)] "CSCI" = true ∧
    gatedOrchestrateSubject (some 7) [("CSCI", ⟨.completed, 42, 3⟩)] "CSCI"
      [] 5 true = ⟨[("CSCI", ⟨.completed, 42, 3⟩)], 0⟩ :=
  ⟨by decide,
   (completed_subject_skipped (some 7) [("CSCI", ⟨.completed, 42, 3⟩)]
     "CSCI" [] 5 true).2 (by decide)⟩

/-- Helper: a run over retryable outcomes only is still retrying, and its
waits follow the capped exponential schedule from the current failure
count. -/
theorem robustRun_retrying (k : Nat) (os : List ReqOutcome)
    (h : ∀ o ∈ os, retryableOutcome o) :
    robustRun k os =
      .retrying ((List.range os.length).map fun i => min 60 (2 ^ (k + i))) := by
  induction os generalizing k with
  | nil => simp [robustRun]
  | cons o os ih =>
    have ho := h o (by simp)
    have hos : ∀ o' ∈ os, retryableOutcome o' := fun o' ho' => h o' (by simp [ho'])
    have hrest := ih (k + 1) hos
    have hexp : ((List.range os.length).map
          ((fun i => min 60 (2 ^ (k + i))) ∘ Nat.succ)) =
        (List.range os.length).map fun i => min 60 (2 ^ (k + 1 + i)) := by
      apply List.map_congr_left
      intro i _
      simp only [Function.comp_apply, Nat.succ_eq_add_one]
      have h2 : k + (i + 1) = k + 1 + i := by omega
      rw [h2]
    rcases ho with rfl | ⟨s, rfl, hs⟩
    · simp only [robustRun, robustStep]
      rw [hrest]
      rw [List.length_cons, List.range_succ_eq_map, List.map_cons,
        List.map_map, hexp, Nat.add_zero]
      rfl
    · simp only [robustRun, robustStep, if_pos hs]
      rw [hrest]
      rw [List.length_cons, List.range_succ_eq_map, List.map_cons,
        List.map_map, hexp, Nat.add_zero]
      rfl

/-- C5: the transport wrapper retries connection/timeout errors and HTTP
502/503/504 with exponential backoff waits of `min(60, 1s * 2^(attempt-1))`
(with `attempt` the 1-based count of failures so far), raises any other
HTTP error status to the caller immediately with no retry, and keeps
retrying indefinitely as long as only retryable outcomes occur, with
exactly that wait schedule. -/
theorem robust_request_retry_policy :
    (∀ k : Nat, robustStep k .netErr = .retryAfter (min 60 (2 ^ k))) ∧
    (∀ k s, s ∈ [502, 503, 504] →
      robustStep k (.httpErr s) = .retryAfter (min 60 (2 ^ k))) ∧
    (∀ k s, s ∉ [502, 503, 504] →
      robustStep k (.httpErr s) = .raiseStatus s) ∧
    (∀ k s os, s ∉ [502, 503, 504] →
      robustRun k (.httpErr s :: os) = .raised s []) ∧
    (∀ os : List ReqOutcome, (∀ o ∈ os, retryableOutcome o) →
      robustRun 0 os =
        .retrying ((List.range os.length).map fun i => min 60 (2 ^ i))) := by
  refine ⟨fun k => rfl, fun k s hs => ?_, fun k s hs => ?_,
    fun k s os hs => ?_, fun os h => ?_⟩
  · simp [robustStep, hs]
  · simp [robustStep, hs]
  · simp [robustRun, robustStep, hs]
  · have := robustRun_retrying 0 os h
    simpa using this

/-- Witness for `robust_request_retry_policy` at concrete inputs: a 503
after two failures waits `min(60, 4) = 4` seconds, a 404 raises, and a run
of three retryable outcomes is still retrying after waits 1, 2, 4. -/
theorem robust_request_retry_policy_witness :
    robustStep 2 (.httpErr 503) = .retryAfter 4 ∧
    robustStep 0 (.httpErr 404) = .raiseStatus 404 ∧
    robustRun 0 [.netErr, .httpErr 502, .netErr] = .retrying [1, 2, 4] := by
  refine ⟨robust_request_retry_policy.2.1 2 503 (by decide),
    robust_request_retry_policy.2.2.1 0 404 (by decide), ?_⟩
  have := robust_request_retry_policy.2.2.2.2
    [.netErr, .httpErr 502, .netErr]
    (by
      intro o ho
      simp only [List.mem_cons, List.not_mem_nil, or_false] at ho
      rcases ho with rfl | rfl | rfl
      · exact Or.inl rfl
      · exact Or.inr ⟨502, rfl, by decide⟩
      · exact Or.inl rfl)
  simpa using this

/-- C6: an invalid classifier guess (here the raw output `" ab1 "`, which
strips to 3 characters) makes `_solve_captcha` return `None` and
`_extract_form_data` return the empty dict — yet `scrape_subject` still
POSTs the search form for that attempt, with a payload holding only the
subject field and carrying neither the guess nor any hidden state token;
with a valid guess the same page yields the full payload. -/
theorem invalid_guess_still_submitted :
    solveCaptcha " ab1 " = none ∧
    extractFormData
      [(some "__VIEWSTATE", "vs0"), (some "__EVENTVALIDATION", "ev0")]
      " ab1 " = [] ∧
    attemptPostPayload
      [(some "__VIEWSTATE", "vs0"), (some "__EVENTVALIDATION", "ev0")]
      " ab1 " "CSCI" = [("ddl_subject", "CSCI")] ∧
    dictGet "txt_captcha"
      (attemptPostPayload
        [(some "__VIEWSTATE", "vs0"), (some "__EVENTVALIDATION", "ev0")]
        " ab1 " "CSCI") = none ∧
    attemptPostPayload
      [(some "__VIEWSTATE", "vs0"), (some "__EVENTVALIDATION", "ev0")]
      "ab12" "CSCI" =
      [("__VIEWSTATE", "vs0"), ("__EVENTVALIDATION", "ev0"),
       ("txt_captcha", "AB12"), ("ddl_subject", "CSCI"),
       ("btn_search", "Search")] := by
  refine ⟨rfl, rfl, rfl, rfl, rfl⟩

/-- Looking up the key just set returns the value just set. -/
theorem dictGet_dictSet_self {α β : Type} [DecidableEq α] (k : α) (v : β)
    (l : List (α × β)) : dictGet k (dictSet k v l) = some v := by
  induction l with
  | nil => simp [dictSet, dictGet]
  | cons kv rest ih =>
    obtain ⟨k', v'⟩ := kv
    by_cases h : k' = k
    · subst h
      simp [dictSet, dictGet]
    · simp [dictSet, dictGet, h, ih]

/-- Setting one key leaves lookups of any other key unchanged. -/
theorem dictGet_dictSet_ne {α β : Type} [DecidableEq α] {k k' : α} (v : β)
    (l : List (α × β)) (h : k ≠ k') :
    dictGet k (dictSet k' v l) = dictGet k l := by
  have h' : ¬(k' = k) := fun e => h e.symm
  induction l with
  | nil => simp [dictSet, dictGet, h']
  | cons kv rest ih =>
    obtain ⟨k'', v''⟩ := kv
    by_cases h2 : k'' = k'
    · subst h2
      simp [dictSet, dictGet, h']
    · simp only [dictSet, if_neg h2, dictGet]
      by_cases h3 : k'' = k
      · simp [h3]
      · simp [h3, ih]

/-- A sequence of explicit assignments leaves every unassigned key
unchanged. -/
theorem dictGet_foldl_assign {α β : Type} [DecidableEq α] (k : α)
    (ov : List (α × β)) (init : List (α × β)) (h : k ∉ ov.map Prod.fst) :
    dictGet k (ov.foldl (fun acc kv => dictSet kv.1 kv.2 acc) init) =
      dictGet k init := by
  induction ov generalizing init with
  | nil => simp
  | cons kv rest ih =>
    simp only [List.map_cons, List.mem_cons] at h
    push_neg at h
    rw [List.foldl_cons, ih _ h.2, dictGet_dictSet_ne _ _ h.1]

/-- The hidden-field loop leaves keys that name no hidden input
unchanged. -/
theorem dictGet_buildHidden_notMem (n : String) (hidden : HiddenInputs)
    (init : List (String × String)) (h : n ∉ hiddenNames hidden) :
    dictGet n (hidden.foldl
      (fun acc nv =>
        match nv.1 with
        | some m => if m ≠ "" then dictSet m nv.2 acc else acc
        | none => acc)
      init) = dictGet n init := by
  induction hidden generalizing init with
  | nil => simp
  | cons nv rest ih =>
    obtain ⟨o, w⟩ := nv
    rcases o with _ | m
    · simp only [hiddenNames] at h
      simpa using ih init h
    · by_cases hm : m = ""
      · subst hm
        simp only [hiddenNames, ne_eq, not_true_eq_false, if_false] at h
        simp only [List.foldl_cons, ne_eq, not_true_eq_false, if_false,
          ite_self]
        exact ih init h
      · simp only [hiddenNames, ne_eq, hm, not_false_eq_true, if_true,
          List.mem_cons] at h
        push_neg at h
        simp only [List.foldl_cons, ne_eq, hm, not_false_eq_true, if_true]
        rw [ih _ h.2, dictGet_dictSet_ne _ _ h.1]

/-- With distinct hidden-input names, the hidden-field loop records every
(truthy-named) hidden input's value under its name. -/
theorem dictGet_buildHidden_mem (n v : String) (hidden : HiddenInputs)
    (init : List (String × String)) (hnd : (hiddenNames hidden).Nodup)
    (hmem : (some n, v) ∈ hidden) (hne : n ≠ "") :
    dictGet n (hidden.foldl
      (fun acc nv =>
        match nv.1 with
        | some m => if m ≠ "" then dictSet m nv.2 acc else acc
        | none => acc)
      init) = some v := by
  induction hidden generalizing init with
  | nil => simp at hmem
  | cons nv rest ih =>
    obtain ⟨o, w⟩ := nv
    rcases List.mem_cons.mp hmem with heq | hrest
    · have heq' := heq.symm
      injection heq' with h1 h2
      subst h1
      subst h2
      simp only [hiddenNames, ne_eq, hne, not_false_eq_true, if_true] at hnd
      have hnotin : n ∉ hiddenNames rest := (List.nodup_cons.mp hnd).1
      simp only [List.foldl_cons, ne_eq, hne, not_false_eq_true, if_true]
      rw [dictGet_buildHidden_notMem n rest _ hnotin, dictGet_dictSet_self]
    · rcases o with _ | m
      · simp only [hiddenNames] at hnd
        simp only [List.foldl_cons]
        exact ih init hnd hrest
      · by_cases hm : m = ""
        · subst hm
          simp only [hiddenNames, ne_eq, not_true_eq_false, if_false] at hnd
          simp only [List.foldl_cons, ne_eq, not_true_eq_false, if_false,
            ite_self]
          exact ih init hnd hrest
        · simp only [hiddenNames, ne_eq, hm, not_false_eq_true, if_true] at hnd
          simp only [List.foldl_cons, ne_eq, hm, not_false_eq_true, if_true]
          exact ih _ (List.nodup_cons.mp hnd).2 hrest

/-- C7: for every page and every next form submission built from it, every
field that the caller does not explicitly override is carried forward from
the page's hidden inputs unchanged: lookups of non-overridden names in the
submission agree with the hidden-field map, and (with distinct hidden-input
names) every hidden input whose name is not overridden appears in the
submission with its exact name and value. -/
theorem hidden_fields_carried (b : FormBuilder) (hidden : HiddenInputs) :
    (∀ n : String, n ∉ overrideNames b →
      dictGet n (buildSubmission b hidden) = dictGet n (buildHidden hidden)) ∧
    (∀ n v : String, (hiddenNames hidden).Nodup → (some n, v) ∈ hidden →
      n ≠ "" → n ∉ overrideNames b →
      dictGet n (buildSubmission b hidden) = some v) := by
  constructor
  · intro n hn
    exact dictGet_foldl_assign n (builderOverrides b) (buildHidden hidden) hn
  · intro n v hnd hmem hne hn
    have h1 : dictGet n (buildSubmission b hidden) =
        dictGet n (buildHidden hidden) :=
      dictGet_foldl_assign n (builderOverrides b) (buildHidden hidden) hn
    have h2 : dictGet n (buildHidden hidden) = some v :=
      dictGet_buildHidden_mem n v hidden [] hnd hmem hne
    exact h1.trans h2

/-- Witness for `hidden_fields_carried`: on a page with the two ASP.NET
state tokens, the course-detail postback carries `__VIEWSTATE` forward
verbatim. -/
theorem hidden_fields_carried_witness :
    dictGet "__VIEWSTATE"
      (buildSubmission (.coursePostback "gv_detail$ctl02$lbtn_course_nbr")
        [(some "__VIEWSTATE", "vs77"), (some "__EVENTVALIDATION", "ev88")]) =
      some "vs77" :=
  (hidden_fields_carried (.coursePostback "gv_detail$ctl02$lbtn_course_nbr")
    [(some "__VIEWSTATE", "vs77"), (some "__EVENTVALIDATION", "ev88")]).2
    "__VIEWSTATE" "vs77" (by decide) (by decide) (by decide) (by decide)

/-- Single-character substring containment is list membership. -/
theorem containsCL_single (c : Char) (l : List Char) :
    containsCL [c] l = true ↔ c ∈ l := by
  induction l with
  | nil => simp [containsCL]
  | cons x xs ih =>
    simp only [containsCL, isPrefixCL, Bool.or_eq_true, Bool.and_eq_true,
      List.mem_cons, ih]
    constructor
    · rintro (⟨hc, _⟩ | h)
      · exact Or.inl (by simpa using hc)
      · exact Or.inr h
    · rintro (rfl | h)
      · exact Or.inl (by simp)
      · exact Or.inr h

/-- A digits-then-close run contains a closing parenthesis. -/
theorem digitsThenClose_mem (l : List Char) (h : digitsThenClose l = true) :
    ')' ∈ l := by
  induction l with
  | nil => simp [digitsThenClose] at h
  | cons c rest ih =>
    by_cases hc : c = ')'
    · simp [hc]
    · simp only [digitsThenClose, if_neg hc, Bool.and_eq_true] at h
      exact List.mem_cons_of_mem _ (ih h.2)

/-- A string containing a parenthesized number contains both parens. -/
theorem containsParenNumber_parens (l : List Char)
    (h : containsParenNumber l = true) : '(' ∈ l ∧ ')' ∈ l := by
  induction l with
  | nil => simp [containsParenNumber] at h
  | cons c rest ih =>
    simp only [containsParenNumber, Bool.or_eq_true] at h
    rcases h with h | h
    · rcases rest with _ | ⟨d, rest2⟩
      · simp [parenNumAt] at h
      · simp only [parenNumAt, Bool.and_eq_true, decide_eq_true_eq] at h
        obtain ⟨⟨hc, _⟩, hd⟩ := h
        subst hc
        refine ⟨List.mem_cons_self .., ?_⟩
        have := digitsThenClose_mem rest2 hd
        simp [List.mem_cons, this]
    · obtain ⟨h1, h2⟩ := ih h
      exact ⟨List.mem_cons_of_mem _ h1, List.mem_cons_of_mem _ h2⟩

/-- Membership in the first-occurrence fold. -/
theorem mem_foldl_insertSectionLabel (l : List String) (acc : List String)
    (s : String) :
    s ∈ l.foldl insertSectionLabel acc ↔ s ∈ acc ∨ s ∈ l := by
  induction l generalizing acc with
  | nil => simp
  | cons x xs ih =>
    rw [List.foldl_cons, ih]
    have : s ∈ insertSectionLabel acc x ↔ s ∈ acc ∨ s = x := by
      unfold insertSectionLabel
      by_cases hx : x ∈ acc
      · simp only [if_pos hx]
        constructor
        · exact Or.inl
        · rintro (h | rfl)
          · exact h
          · exact hx
      · simp [if_neg hx]
    rw [this]
    simp only [List.mem_cons]
    tauto

/-- C8 (corrected): the claim is false — the extraction keeps any section
label containing a `(` and a `)` without checking that the parenthesized
content is numeric: the row labelled `--LEC (A)` lacks a parenthesized
numeric suffix yet is retained as a section. -/
theorem c8_counterexample :
    parseScheduleSections ["--LEC (A)"] = ["--LEC (A)"] ∧
    hasParenNumericSuffix "--LEC (A)" = false := by
  refine ⟨rfl, rfl⟩

/-- C8 (amended): extraction discards a schedule row exactly when its
section label is empty or lacks `(` or lacks `)`; every label containing
both characters is retained — in particular every label with a
parenthesized numeric suffix is retained, but the numeric shape itself is
not checked. -/
theorem section_row_filter (rows : List String) (s : String) :
    (s ∈ parseScheduleSections rows ↔ s ∈ rows ∧ sectionRowKept s = true) ∧
    (sectionRowKept s = true ↔
      ¬(s = "" ∨ pyIn "(" s = false ∨ pyIn ")" s = false)) ∧
    (hasParenNumericSuffix s = true → sectionRowKept s = true) := by
  refine ⟨?_, ?_, ?_⟩
  · unfold parseScheduleSections
    rw [mem_foldl_insertSectionLabel]
    simp [List.mem_filter]
  · unfold sectionRowKept sectionRowSkipped pyTruthy
    constructor
    · intro h
      simp only [Bool.not_eq_true', Bool.or_eq_false_iff,
        Bool.not_eq_false'] at h
      rintro (he | hp | hp)
      · simp [he] at h
      · rw [hp] at h
        simp at h
      · rw [hp] at h
        simp at h
    · intro h
      push_neg at h
      obtain ⟨he, h1, h2⟩ := h
      simp [he, Bool.not_eq_false, h1, h2]
  · intro h
    unfold hasParenNumericSuffix at h
    obtain ⟨hopen, hclose⟩ := containsParenNumber_parens s.data h
    have hne : ¬(s = "") := by
      intro he
      subst he
      simp at hopen
    unfold sectionRowKept sectionRowSkipped pyTruthy pyIn
    have h1 : containsCL "(".data s.data = true := by
      have : ("(" : String).data = ['('] := rfl
      rw [this, containsCL_single]
      exact hopen
    have h2 : containsCL ")".data s.data = true := by
      have : (")" : String).data = [')'] := rfl
      rw [this, containsCL_single]
      exact hclose
    simp [hne, h1, h2]

/-- Witness for `section_row_filter`: the label `--LEC (8192)` has a
parenthesized numeric suffix and is retained by the extraction. -/
theorem section_row_filter_witness :
    sectionRowKept "--LEC (8192)" = true ∧
    "--LEC (8192)" ∈ parseScheduleSections ["--LEC (8192)"] :=
  ⟨(section_row_filter ["--LEC (8192)"] "--LEC (8192)").2.2 (by decide),
   (section_row_filter ["--LEC (8192)"] "--LEC (8192)").1.mpr
     ⟨by decide, (section_row_filter ["--LEC (8192)"] "--LEC (8192)").2.2
       (by decide)⟩⟩

/-- C9 (corrected): the claim is false — with both count strings empty
(non-numeric inputs: `int('')` raises), the derived status is `Closed`,
not `Unknown`: the code substitutes 0 for an empty count before parsing. -/
theorem c9_counterexample :
    availabilityStatus "" "" = "Closed" ∧ pyInt "" = none ∧
    ("Closed" : String) ≠ "Unknown" := by
  refine ⟨rfl, rfl, by decide⟩

/-- C9 (amended): the derived status is `Open` if the available-seat count
parses to an integer greater than 0, else `Waitlisted` if the waitlist
total parses greater than 0, else `Closed`, where an empty count string is
treated as 0; the status is `Unknown` exactly when a non-empty count string
fails integer parsing. -/
theorem availability_status_amended (a w : String) :
    ((a ≠ "" ∧ pyInt a = none) ∨ (w ≠ "" ∧ pyInt w = none) →
      availabilityStatus a w = "Unknown") ∧
    (∀ av wv : Int,
      (if a = "" then some 0 else pyInt a) = some av →
      (if w = "" then some 0 else pyInt w) = some wv →
      availabilityStatus a w =
        if av > 0 then "Open" else if wv > 0 then "Waitlisted" else "Closed") := by
  constructor
  · intro h
    unfold availabilityStatus
    rcases h with ⟨hne, hnone⟩ | ⟨hne, hnone⟩
    · simp [pyTruthy, hne, hnone]
    · rcases hA : (if pyTruthy a = true then pyInt a else some 0) with _ | av
      · simp [hA]
      · simp [pyTruthy, hne, hnone, hA]
  · intro av wv hA hW
    have hA' : (if pyTruthy a = true then pyInt a else some 0) = some av := by
      by_cases ha : a = ""
      · subst ha
        rw [if_pos rfl] at hA
        simpa [pyTruthy] using hA
      · rw [if_neg ha] at hA
        simpa [pyTruthy, ha] using hA
    have hW' : (if pyTruthy w = true then pyInt w else some 0) = some wv := by
      by_cases hw : w = ""
      · subst hw
        rw [if_pos rfl] at hW
        simpa [pyTruthy] using hW
      · rw [if_neg hw] at hW
        simpa [pyTruthy, hw] using hW
    unfold availabilityStatus
    rw [hA', hW']

/-- Witness for `availability_status_amended`: 3 available seats give
`Open`; an unparseable available-seat string gives `Unknown`. -/
theorem availability_status_amended_witness :
    availabilityStatus "3" "0" = "Open" ∧
    availabilityStatus "abc" "0" = "Unknown" :=
  ⟨((availability_status_amended "3" "0").2 3 0 (by decide)
      (by decide)).trans (by decide),
   (availability_status_amended "abc" "0").1 (Or.inl ⟨by decide, by decide⟩)⟩

/-- A digit character parses to its value. -/
theorem pDigit_digitChar (d : Nat) (h : d < 10) (r : List Char) :
    pDigit (digitChar d :: r) = some (d, r) := by
  interval_cases d <;> rfl

/-- A canonical two-digit group parses to its value. -/
theorem pTwoDigits_twoDig (n : Nat) (h : n < 100) (r : List Char) :
    pTwoDigits (twoDigChars n ++ r) = some (n, r) := by
  have h1 : n / 10 < 10 := by omega
  have h2 : n % 10 < 10 := by omega
  simp only [twoDigChars, List.cons_append, List.nil_append]
  simp [pTwoDigits, pDigit_digitChar _ h1, pDigit_digitChar _ h2]
  omega

/-- A canonical period parses to its flag. -/
theorem pPeriod_periodChars (p : Bool) (r : List Char) :
    pPeriod (periodChars p ++ r) = some (p, r) := by
  cases p <;> rfl

/-- Applying `pHourRest` to a failed hour parse fails. -/
theorem pHourRest_none : pHourRest none = none := rfl

/-- A colon is not a digit. -/
theorem pDigit_colon (x : List Char) : pDigit (':' :: x) = none := rfl

/-- A canonical 12-hour time part parses to its components, for any
continuation. -/
theorem pTime12_canonical (h m : Nat) (p : Bool) (r : List Char)
    (hh1 : 1 ≤ h) (hh2 : h ≤ 12) (hm : m < 60) :
    pTime12 (timePartChars12 h m p ++ r) = some (h, m, p, r) := by
  have hm' : m < 100 := by omega
  have hB : pHourRest (some (h, ':' :: (twoDigChars m ++ (periodChars p ++ r)))) =
      some (h, m, p, r) := by
    simp [pHourRest, pColon, pTwoDigits_twoDig _ hm', pPeriod_periodChars]
  by_cases hlt : h < 10
  · have hl : timePartChars12 h m p ++ r =
        digitChar h :: ':' :: (twoDigChars m ++ (periodChars p ++ r)) := by
      simp [timePartChars12, hourChars12, hlt]
    rw [hl]
    have hC : pTwoDigits (digitChar h :: ':' ::
        (twoDigChars m ++ (periodChars p ++ r))) = none := by
      simp [pTwoDigits, pDigit_digitChar _ hlt, pDigit_colon]
    simp [pTime12, hC, pHourRest_none, pDigit_digitChar _ hlt, hB]
  · have hd : h - 10 < 10 := by omega
    have hl : timePartChars12 h m p ++ r =
        '1' :: digitChar (h - 10) :: ':' ::
          (twoDigChars m ++ (periodChars p ++ r)) := by
      simp [timePartChars12, hourChars12, hlt]
    rw [hl]
    have hone : pDigit ('1' :: digitChar (h - 10) :: ':' ::
        (twoDigChars m ++ (periodChars p ++ r))) =
        some (1, digitChar (h - 10) :: ':' ::
          (twoDigChars m ++ (periodChars p ++ r))) := rfl
    have hTwo : pTwoDigits ('1' :: digitChar (h - 10) :: ':' ::
        (twoDigChars m ++ (periodChars p ++ r))) =
        some (h, ':' :: (twoDigChars m ++ (periodChars p ++ r))) := by
      simp [pTwoDigits, hone, pDigit_digitChar _ hd]
      omega
    simp [pTime12, hTwo, hB]

/-- A canonical 24-hour time part parses to its components, for any
continuation. -/
theorem pTime24_canonical (h m : Nat) (r : List Char)
    (hh : h < 24) (hm : m < 60) :
    pTime24 (timePartChars24 h m ++ r) = some (h, m, r) := by
  have hh' : h < 100 := by omega
  have hm' : m < 100 := by omega
  have hl : timePartChars24 h m ++ r =
      twoDigChars h ++ (':' :: (twoDigChars m ++ r)) := by
    simp [timePartChars24]
  rw [hl]
  simp [pTime24, pHourRest24, pTwoDigits_twoDig _ hh', pColon,
    pTwoDigits_twoDig _ hm']

/-- Applying `pHourRest24` to a failed hour parse fails. -/
theorem pHourRest24_none : pHourRest24 none = none := rfl

/-- Digit characters are not whitespace. -/
theorem isPySpace_digitChar (d : Nat) (h : d < 10) :
    isPySpace (digitChar d) = false := by
  interval_cases d <;> decide

/-- A non-space head stops the whitespace munch. -/
theorem pWs_cons_notspace {c : Char} (h : isPySpace c = false)
    (x : List Char) : pWs (c :: x) = c :: x := by
  simp [pWs, List.dropWhile_cons, h]

/-- A canonical 12-hour time part starts with a non-space character. -/
theorem pWs_timePart12 (h m : Nat) (p : Bool) :
    pWs (timePartChars12 h m p) = timePartChars12 h m p := by
  by_cases hlt : h < 10
  · have : timePartChars12 h m p =
        digitChar h :: (':' :: (twoDigChars m ++ periodChars p)) := by
      simp [timePartChars12, hourChars12, hlt]
    rw [this, pWs_cons_notspace (isPySpace_digitChar _ hlt)]
  · have : timePartChars12 h m p =
        '1' :: (digitChar (h - 10) :: ':' :: (twoDigChars m ++ periodChars p)) := by
      simp [timePartChars12, hourChars12, hlt]
    rw [this, pWs_cons_notspace (by decide)]

/-- A canonical 24-hour time part starts with a non-space character. -/
theorem pWs_timePart24 (h m : Nat) (hh : h < 24) :
    pWs (timePartChars24 h m) = timePartChars24 h m := by
  have h1 : h / 10 < 10 := by omega
  have : timePartChars24 h m =
      digitChar (h / 10) :: (digitChar (h % 10) :: ':' :: twoDigChars m) := by
    simp [timePartChars24, twoDigChars]
  rw [this, pWs_cons_notspace (isPySpace_digitChar _ h1)]

/-- The AM/PM pattern matches a canonical valid 12-hour range at its first
position, yielding exactly its components. -/
theorem matchAmPmAt_mk12 (h1 m1 : Nat) (p1 : Bool) (h2 m2 : Nat) (p2 : Bool)
    (hh1 : 1 ≤ h1) (hh1' : h1 ≤ 12) (hm1 : m1 < 60)
    (hh2 : 1 ≤ h2) (hh2' : h2 ≤ 12) (hm2 : m2 < 60) :
    matchAmPmAt (mkTime12 h1 m1 p1 h2 m2 p2).data =
      some (h1, m1, p1, h2, m2, p2) := by
  have hdata : (mkTime12 h1 m1 p1 h2 m2 p2).data =
      timePartChars12 h1 m1 p1 ++
        (' ' :: '-' :: ' ' :: timePartChars12 h2 m2 p2) := rfl
  rw [hdata]
  have h12a := pTime12_canonical h1 m1 p1
    (' ' :: '-' :: ' ' :: timePartChars12 h2 m2 p2) hh1 hh1' hm1
  have hws1 : pWs (' ' :: '-' :: ' ' :: timePartChars12 h2 m2 p2) =
      '-' :: ' ' :: timePartChars12 h2 m2 p2 := rfl
  have hdash : pDash ('-' :: ' ' :: timePartChars12 h2 m2 p2) =
      some (' ' :: timePartChars12 h2 m2 p2) := rfl
  have hws2 : pWs (' ' :: timePartChars12 h2 m2 p2) =
      pWs (timePartChars12 h2 m2 p2) := rfl
  have hws3 := pWs_timePart12 h2 m2 p2
  have h12b : pTime12 (timePartChars12 h2 m2 p2) = some (h2, m2, p2, []) := by
    have := pTime12_canonical h2 m2 p2 [] hh2 hh2' hm2
    simpa using this
  simp [matchAmPmAt, h12a, hws1, hdash, hws2, hws3, h12b]

/-- The 24-hour pattern matches a canonical valid 24-hour range at its
first position, yielding exactly its components. -/
theorem match24At_mk24 (h1 m1 h2 m2 : Nat)
    (hh1 : h1 < 24) (hm1 : m1 < 60) (hh2 : h2 < 24) (hm2 : m2 < 60) :
    match24At (mkTime24 h1 m1 h2 m2).data = some (h1, m1, h2, m2) := by
  have hdata : (mkTime24 h1 m1 h2 m2).data =
      timePartChars24 h1 m1 ++ (' ' :: '-' :: ' ' :: timePartChars24 h2 m2) :=
    rfl
  rw [hdata]
  have h24a := pTime24_canonical h1 m1
    (' ' :: '-' :: ' ' :: timePartChars24 h2 m2) hh1 hm1
  have hws1 : pWs (' ' :: '-' :: ' ' :: timePartChars24 h2 m2) =
      '-' :: ' ' :: timePartChars24 h2 m2 := rfl
  have hdash : pDash ('-' :: ' ' :: timePartChars24 h2 m2) =
      some (' ' :: timePartChars24 h2 m2) := rfl
  have hws2 : pWs (' ' :: timePartChars24 h2 m2) =
      pWs (timePartChars24 h2 m2) := rfl
  have hws3 := pWs_timePart24 h2 m2 hh2
  have h24b : pTime24 (timePartChars24 h2 m2) = some (h2, m2, []) := by
    have := pTime24_canonical h2 m2 [] hh2 hm2
    simpa using this
  simp [match24At, h24a, hws1, hdash, hws2, hws3, h24b]

/-- A search succeeds at the first position that matches. -/
theorem searchAmPm_of_matchAt {l : List Char}
    {g : Nat × Nat × Bool × Nat × Nat × Bool} (h : matchAmPmAt l = some g) :
    searchAmPm l = some g := by
  cases l with
  | nil => rw [searchAmPm, h]
  | cons c rest => simp [searchAmPm, h]

/-- A search succeeds at the first position that matches (24-hour). -/
theorem search24_of_matchAt {l : List Char} {g : Nat × Nat × Nat × Nat}
    (h : match24At l = some g) : search24 l = some g := by
  cases l with
  | nil => rw [search24, h]
  | cons c rest => simp [search24, h]

/-- A successful period parse saw an `A`/`a`/`P`/`p`. -/
theorem pPeriod_mem {l : List Char} {p : Bool} {r : List Char}
    (h : pPeriod l = some (p, r)) :
    ∃ c ∈ l, c ∈ (['A', 'a', 'P', 'p'] : List Char) := by
  match l with
  | [] => simp [pPeriod] at h
  | [a] => simp [pPeriod] at h
  | a :: m :: rest =>
    by_cases h1 : (a = 'A' || a = 'a') && (m = 'M' || m = 'm')
    · refine ⟨a, List.mem_cons_self .., ?_⟩
      simp only [Bool.and_eq_true, Bool.or_eq_true, decide_eq_true_eq] at h1
      rcases h1.1 with rfl | rfl <;> simp
    · by_cases h2 : (a = 'P' || a = 'p') && (m = 'M' || m = 'm')
      · refine ⟨a, List.mem_cons_self .., ?_⟩
        simp only [Bool.and_eq_true, Bool.or_eq_true, decide_eq_true_eq] at h2
        rcases h2.1 with rfl | rfl <;> simp
      · simp [pPeriod, h1, h2] at h

/-- The rest after `pDigit` is a suffix of its input. -/
theorem pDigit_suffix {l : List Char} {d : Nat} {r : List Char}
    (h : pDigit l = some (d, r)) : r <:+ l := by
  match l with
  | [] => simp [pDigit] at h
  | c :: x =>
    by_cases hc : c.isDigit
    · simp only [pDigit, hc, if_true] at h
      obtain ⟨-, rfl⟩ := Prod.mk.injEq .. ▸ Option.some.injEq .. ▸ h
      exact List.suffix_cons c x
    · simp [pDigit, hc] at h

/-- The rest after `pColon` is a suffix of its input. -/
theorem pColon_suffix {l r : List Char} (h : pColon l = some r) : r <:+ l := by
  match l with
  | [] => simp [pColon] at h
  | c :: x =>
    by_cases hc : c = ':'
    · simp only [pColon, hc, if_true] at h
      injection h with h2
      subst h2
      exact List.suffix_cons c _
    · simp [pColon, hc] at h

/-- The rest after `pTwoDigits` is a suffix of its input. -/
theorem pTwoDigits_suffix {l : List Char} {n : Nat} {r : List Char}
    (h : pTwoDigits l = some (n, r)) : r <:+ l := by
  unfold pTwoDigits at h
  rcases e1 : pDigit l with _ | ⟨a, r1⟩
  · simp [e1] at h
  · simp only [e1] at h
    rcases e2 : pDigit r1 with _ | ⟨b, r2⟩
    · simp [e2] at h
    · simp only [e2, Option.some.injEq, Prod.mk.injEq] at h
      obtain ⟨-, rfl⟩ := h
      exact (pDigit_suffix e2).trans (pDigit_suffix e1)

/-- A successful `pHourRest` saw a period character in its tail input. -/
theorem pHourRest_mem {h0 : Nat} {r0 : List Char}
    {h m : Nat} {p : Bool} {r : List Char}
    (hres : pHourRest (some (h0, r0)) = some (h, m, p, r)) :
    ∃ c ∈ r0, c ∈ (['A', 'a', 'P', 'p'] : List Char) := by
  simp only [pHourRest] at hres
  rcases e1 : pColon r0 with _ | r1
  · simp [e1] at hres
  · simp only [e1] at hres
    rcases e2 : pTwoDigits r1 with _ | ⟨m2, r2⟩
    · simp [e2] at hres
    · simp only [e2] at hres
      rcases e3 : pPeriod r2 with _ | ⟨p3, r3⟩
      · simp [e3] at hres
      · obtain ⟨c, hc, hcs⟩ := pPeriod_mem e3
        have hsub : r2 ⊆ r0 :=
          ((pTwoDigits_suffix e2).trans (pColon_suffix e1)).subset
        exact ⟨c, hsub hc, hcs⟩

/-- A successful 12-hour time-part parse saw a period character. -/
theorem pTime12_mem {l : List Char} {res : Nat × Nat × Bool × List Char}
    (h : pTime12 l = some res) :
    ∃ c ∈ l, c ∈ (['A', 'a', 'P', 'p'] : List Char) := by
  obtain ⟨h1, m1, p1, r1⟩ := res
  unfold pTime12 at h
  rcases e0 : pHourRest (pTwoDigits l) with _ | res2
  · simp only [e0] at h
    rcases e1 : pDigit l with _ | ⟨d, r0⟩
    · rw [e1] at h
      simp [pHourRest] at h
    · rw [e1] at h
      obtain ⟨c, hc, hcs⟩ := pHourRest_mem h
      exact ⟨c, (pDigit_suffix e1).subset hc, hcs⟩
  · simp only [e0, Option.some.injEq] at h
    subst h
    rcases e1 : pTwoDigits l with _ | ⟨n, r0⟩
    · rw [e1] at e0
      simp [pHourRest] at e0
    · rw [e1] at e0
      obtain ⟨c, hc, hcs⟩ := pHourRest_mem e0
      exact ⟨c, (pTwoDigits_suffix e1).subset hc, hcs⟩

/-- A successful AM/PM whole-pattern match saw a period character. -/
theorem matchAmPmAt_mem {l : List Char}
    {g : Nat × Nat × Bool × Nat × Nat × Bool} (h : matchAmPmAt l = some g) :
    ∃ c ∈ l, c ∈ (['A', 'a', 'P', 'p'] : List Char) := by
  unfold matchAmPmAt at h
  rcases e : pTime12 l with _ | ⟨h1, m1, p1, r⟩
  · rw [e] at h
    simp at h
  · exact pTime12_mem e

/-- The AM/PM search fails on inputs with no period character. -/
theorem searchAmPm_none (l : List Char)
    (h : ∀ c ∈ l, c ∉ (['A', 'a', 'P', 'p'] : List Char)) :
    searchAmPm l = none := by
  induction l with
  | nil => rfl
  | cons c rest ih =>
    have hmat : matchAmPmAt (c :: rest) = none := by
      rcases e : matchAmPmAt (c :: rest) with _ | g
      · rfl
      · obtain ⟨x, hx, hxs⟩ := matchAmPmAt_mem e
        exact absurd hxs (h x hx)
    rw [searchAmPm, hmat]
    exact ih fun x hx => h x (List.mem_cons_of_mem _ hx)

/-- Digit characters are not period characters. -/
theorem digitChar_not_period (d : Nat) (h : d < 10) :
    digitChar d ∉ (['A', 'a', 'P', 'p'] : List Char) := by
  interval_cases d <;> decide

/-- A canonical 24-hour range string contains no period character. -/
theorem mk24_no_period (h1 m1 h2 m2 : Nat)
    (hh1 : h1 < 24) (hm1 : m1 < 60) (hh2 : h2 < 24) (hm2 : m2 < 60) :
    ∀ c ∈ (mkTime24 h1 m1 h2 m2).data,
      c ∉ (['A', 'a', 'P', 'p'] : List Char) := by
  intro c hc
  have hdata : (mkTime24 h1 m1 h2 m2).data =
      timePartChars24 h1 m1 ++ (' ' :: '-' :: ' ' :: timePartChars24 h2 m2) :=
    rfl
  rw [hdata] at hc
  simp only [timePartChars24, twoDigChars, List.mem_append, List.mem_cons,
    List.cons_append, List.nil_append, List.not_mem_nil, or_false] at hc
  have hc' : c = digitChar (h1 / 10) ∨ c = digitChar (h1 % 10) ∨ c = ':' ∨
      c = digitChar (m1 / 10) ∨ c = digitChar (m1 % 10) ∨ c = ' ' ∨
      c = '-' ∨ c = digitChar (h2 / 10) ∨ c = digitChar (h2 % 10) ∨
      c = ':' ∨ c = digitChar (m2 / 10) ∨ c = digitChar (m2 % 10) := by
    tauto
  rcases hc' with rfl | rfl | rfl | rfl | rfl | rfl | rfl | rfl | rfl |
      rfl | rfl | rfl <;>
    first
      | exact digitChar_not_period _ (by omega)
      | decide

/-- A 12-hour time part is at least 6 characters long. -/
theorem timePart12_len (h m : Nat) (p : Bool) :
    6 ≤ (timePartChars12 h m p).length := by
  by_cases hlt : h < 10 <;> cases p <;>
    simp [timePartChars12, hourChars12, hlt, twoDigChars, periodChars]

/-- A 24-hour time part is exactly 5 characters long. -/
theorem timePart24_len (h m : Nat) : (timePartChars24 h m).length = 5 := by
  simp [timePartChars24, twoDigChars]

/-- A canonical 12-hour range is neither empty nor `TBA`. -/
theorem mk12_guard (h1 m1 : Nat) (p1 : Bool) (h2 m2 : Nat) (p2 : Bool) :
    ¬(mkTime12 h1 m1 p1 h2 m2 p2 = "" ∨
      pyUpper (mkTime12 h1 m1 p1 h2 m2 p2) = "TBA") := by
  have e : (mkTime12 h1 m1 p1 h2 m2 p2).data =
      timePartChars12 h1 m1 p1 ++
        (' ' :: '-' :: ' ' :: timePartChars12 h2 m2 p2) := rfl
  have l1 := timePart12_len h1 m1 p1
  have l2 := timePart12_len h2 m2 p2
  have hlen : 15 ≤ (mkTime12 h1 m1 p1 h2 m2 p2).data.length := by
    rw [e, List.length_append]
    simp only [List.length_cons]
    omega
  rintro (he | ht)
  · rw [he] at hlen
    have h0 : ("" : String).data.length = 0 := rfl
    omega
  · have hd := congrArg String.data ht
    have hu : (pyUpper (mkTime12 h1 m1 p1 h2 m2 p2)).data =
        (mkTime12 h1 m1 p1 h2 m2 p2).data.map Char.toUpper := rfl
    rw [hu] at hd
    have h3 : ("TBA" : String).data.length = 3 := rfl
    have := congrArg List.length hd
    rw [List.length_map, h3] at this
    omega

/-- A canonical 24-hour range is neither empty nor `TBA`. -/
theorem mk24_guard (h1 m1 h2 m2 : Nat) :
    ¬(mkTime24 h1 m1 h2 m2 = "" ∨
      pyUpper (mkTime24 h1 m1 h2 m2) = "TBA") := by
  have e : (mkTime24 h1 m1 h2 m2).data =
      timePartChars24 h1 m1 ++ (' ' :: '-' :: ' ' :: timePartChars24 h2 m2) :=
    rfl
  have l1 := timePart24_len h1 m1
  have l2 := timePart24_len h2 m2
  have hlen : 13 ≤ (mkTime24 h1 m1 h2 m2).data.length := by
    rw [e, List.length_append]
    simp only [List.length_cons]
    omega
  rintro (he | ht)
  · rw [he] at hlen
    have h0 : ("" : String).data.length = 0 := rfl
    omega
  · have hd := congrArg String.data ht
    have hu : (pyUpper (mkTime24 h1 m1 h2 m2)).data =
        (mkTime24 h1 m1 h2 m2).data.map Char.toUpper := rfl
    rw [hu] at hd
    have h3 : ("TBA" : String).data.length = 3 := rfl
    have := congrArg List.length hd
    rw [List.length_map, h3] at this
    omega

/-- C10 (corrected): the claim is false — on the malformed string
`13:30PM - 1:00PM` (13 is not a valid 12-hour clock hour) the parser
neither returns the sentinel nor a tuple consistent with 24-hour semantics:
the unvalidated PM arithmetic produces start hour 25. -/
theorem c10_counterexample :
    parse_time_string "13:30PM - 1:00PM" = (25, 30, 13, 0) ∧
    parse_time_string "13:30PM - 1:00PM" ≠ (-1, -1, -1, -1) ∧
    ¬((25 : Int) < 24) := by
  refine ⟨by decide, by decide, by decide⟩

/-- C10 (amended): empty and `TBA` (any case) inputs yield the sentinel;
every canonical valid 12-hour AM/PM range parses to the 24-hour-consistent
4-tuple (12:xxAM maps to hour 0, 12:xxPM stays 12, other PM hours add 12);
every canonical valid 24-hour range parses to its components; and every
string matched by neither pattern yields the sentinel — but the digit
patterns are not range-checked, so malformed strings that match a pattern
(such as `13:30PM - 1:00PM`) are converted by the same arithmetic instead
of producing the sentinel. The parser is a total function and never
raises. -/
theorem parse_time_string_amended :
    (parse_time_string "" = (-1, -1, -1, -1) ∧
      parse_time_string "TBA" = (-1, -1, -1, -1) ∧
      parse_time_string "tba" = (-1, -1, -1, -1)) ∧
    (∀ h1 m1 : Nat, ∀ p1 : Bool, ∀ h2 m2 : Nat, ∀ p2 : Bool,
      1 ≤ h1 → h1 ≤ 12 → m1 < 60 → 1 ≤ h2 → h2 ≤ 12 → m2 < 60 →
      parse_time_string (mkTime12 h1 m1 p1 h2 m2 p2) =
        ((to24 h1 p1 : Int), (m1 : Int), (to24 h2 p2 : Int), (m2 : Int))) ∧
    (∀ h1 m1 h2 m2 : Nat, h1 < 24 → m1 < 60 → h2 < 24 → m2 < 60 →
      parse_time_string (mkTime24 h1 m1 h2 m2) =
        ((h1 : Int), (m1 : Int), (h2 : Int), (m2 : Int))) ∧
    (∀ s : String, searchAmPm s.data = none → search24 s.data = none →
      parse_time_string s = (-1, -1, -1, -1)) := by
  refine ⟨⟨rfl, rfl, rfl⟩, ?_, ?_, ?_⟩
  · intro h1 m1 p1 h2 m2 p2 b1 b2 b3 b4 b5 b6
    unfold parse_time_string
    rw [if_neg (mk12_guard h1 m1 p1 h2 m2 p2),
      searchAmPm_of_matchAt (matchAmPmAt_mk12 h1 m1 p1 h2 m2 p2
        b1 b2 b3 b4 b5 b6)]
  · intro h1 m1 h2 m2 b1 b2 b3 b4
    unfold parse_time_string
    rw [if_neg (mk24_guard h1 m1 h2 m2),
      searchAmPm_none _ (mk24_no_period h1 m1 h2 m2 b1 b2 b3 b4),
      search24_of_matchAt (match24At_mk24 h1 m1 h2 m2 b1 b2 b3 b4)]
  · intro s hA h24
    unfold parse_time_string
    by_cases hg : s = "" ∨ pyUpper s = "TBA"
    · rw [if_pos hg]
    · rw [if_neg hg, hA, h24]

/-- Witness for `parse_time_string_amended`: `9:30AM - 12:15PM` parses to
(9, 30, 12, 15), `09:30 - 10:15` parses to (9, 30, 10, 15), and `hello`
yields the sentinel. -/
theorem parse_time_string_amended_witness :
    parse_time_string (mkTime12 9 30 false 12 15 true) = (9, 30, 12, 15) ∧
    parse_time_string (mkTime24 9 30 10 15) = (9, 30, 10, 15) ∧
    parse_time_string "hello" = (-1, -1, -1, -1) :=
  ⟨(parse_time_string_amended.2.1 9 30 false 12 15 true
      (by decide) (by decide) (by decide) (by decide) (by decide)
      (by decide)).trans (by decide),
   (parse_time_string_amended.2.2.1 9 30 10 15
      (by decide) (by decide) (by decide) (by decide)).trans (by decide),
   parse_time_string_amended.2.2.2 "hello" (by decide) (by decide)⟩
